import Mathlib

/-!
Shallow embedding of the SecureShare encryption core
(`src/utils/encryption.ts`, provided as `src/unnamed/part_002`) and of the
database storage adapter (`src/src/utils/supabaseStorage.ts`).

Modelling conventions:
* Byte buffers (`ArrayBuffer`, `Uint8Array`, binary strings) are `List Nat`;
  values are bytes (`< 256`) wherever the platform guarantees it.
* Asynchronous functions (TypeScript `Promise`) are modelled with
  `Except String` over the rejection message: a thrown `Error(msg)` is
  `Except.error msg` and a resolved value `v` is `Except.ok v`.
* The WebCrypto primitives (`crypto.subtle.*`, `crypto.getRandomValues`,
  `TextEncoder`) are platform code, not code of this repository.  They are
  modelled by an abstract `CryptoProvider`; the behaviour the platform
  documents for AES-256-GCM (round trip, ciphertext length, rejection on a
  wrong key) appears as explicit hypotheses (`AEADRoundTrip`,
  `AEADCiphertextLength`, `AEADWrongKeyRejects`).  `CryptoKey` handles are
  opaque and modelled as `Nat`.
* `crypto.getRandomValues` is modelled as reading consecutive bytes of an
  ambient random tape `g : Nat → Nat` starting from an explicit position;
  one `encryptFile` call consumes bytes `pos..pos+31` for the salt and
  `pos+32..pos+43` for the IV, in the order the source draws them.
-/

/-- Abstract interface to the platform cryptography used by the source
(`crypto.subtle`, `TextEncoder`).  `pbkdf2` bundles the source's
`importKey('raw', passwordBuffer, 'PBKDF2', ...)` followed by
`deriveKey({name:'PBKDF2', salt, iterations, hash}, ..., {name:'AES-GCM',
length}, ...)`: arguments are password bytes, salt bytes, iteration count,
hash name and key length in bits.  `aesGcmEncrypt key iv tagLengthBits pt`
returns ciphertext with the tag appended, as `crypto.subtle.encrypt` does
for AES-GCM; `aesGcmDecrypt` returns `none` where `crypto.subtle.decrypt`
rejects with an `OperationError`. -/
structure CryptoProvider where
  pbkdf2 : List Nat → List Nat → Nat → String → Nat → Nat
  aesGcmEncrypt : Nat → List Nat → Nat → List Nat → List Nat
  aesGcmDecrypt : Nat → List Nat → Nat → List Nat → Option (List Nat)
  sha256 : List Nat → List Nat
  textEncode : String → List Nat

/-- Browser `File` object: its content bytes, its `name` and its MIME
`type`. -/
structure File where
  data : List Nat
  name : String
  type : String
deriving DecidableEq, Inhabited

/-- Browser `File.size`: the byte length of the content. -/
def File.size (f : File) : Nat := f.data.length

/-- The `EncryptedFile` interface of the source: the sealed blob. -/
structure EncryptedFile where
  encryptedData : List Nat
  iv : List Nat
  salt : List Nat
  authTag : List Nat
  filename : String
  originalSize : Nat
  timestamp : Nat
  checksum : String
deriving DecidableEq, Inhabited

/-- Model of `crypto.getRandomValues(new Uint8Array(n))`: the next `n`
bytes of the random tape `g`, starting at position `pos`. -/
def getRandomValues (g : Nat → Nat) (pos n : Nat) : List Nat :=
  (List.range n).map (fun i => g (pos + i) % 256)

/-- Source `generateSalt`: 32 fresh random bytes. -/
def generateSalt (g : Nat → Nat) (pos : Nat) : List Nat :=
  getRandomValues g pos 32

/-- Source `generateIV`: 12 fresh random bytes. -/
def generateIV (g : Nat → Nat) (pos : Nat) : List Nat :=
  getRandomValues g pos 12

/-- Source `deriveKey(password, salt)`.  The body encodes the password with
`TextEncoder`, imports it as a raw PBKDF2 key and derives an AES-GCM key
with 100000 iterations of SHA-256.  The body contains no input validation
and no throw statement, and the two `crypto.subtle` calls never reject for
these fixed, well-formed parameters (PBKDF2 places no length restriction on
the salt), so the promise always resolves. -/
def deriveKey (cp : CryptoProvider) (password : String) (salt : List Nat) :
    Except String Nat :=
  let passwordBuffer := cp.textEncode password
  Except.ok (cp.pbkdf2 passwordBuffer salt 100000 "SHA-256" 256)

/-- JavaScript `b.toString(16)` for a nonnegative integer: lowercase hex
digits. -/
def toHexString (b : Nat) : String :=
  String.mk (Nat.toDigits 16 b)

/-- JavaScript `s.padStart(2, '0')`. -/
def padStart2 (s : String) : String :=
  if s.length < 2 then String.mk (List.replicate (2 - s.length) '0') ++ s else s

/-- Source `calculateChecksum(data)`: SHA-256 digest rendered as lowercase
hex text (`hashArray.map(b => b.toString(16).padStart(2, '0')).join('')`). -/
def calculateChecksum (cp : CryptoProvider) (data : List Nat) : String :=
  String.join ((cp.sha256 data).map (fun b => padStart2 (toHexString b)))

/-- Source `encryptFile(file, password)`.  Draws a fresh salt and IV from
the random tape, derives the key, computes the plaintext checksum, encrypts
with AES-GCM (tagLength 128), splits the trailing 16 bytes off as the
authentication tag (`slice(-16)` / `slice(0, -16)`; for a buffer shorter
than 16 bytes JavaScript clamps exactly as truncated subtraction does) and
assembles the blob.  `now` stands for `Date.now()`. -/
def encryptFile (cp : CryptoProvider) (g : Nat → Nat) (pos now : Nat)
    (file : File) (password : String) : Except String EncryptedFile :=
  let salt := generateSalt g pos
  let iv := generateIV g (pos + 32)
  match deriveKey cp password salt with
  | Except.error e => Except.error e
  | Except.ok key =>
    let fileBuffer := file.data
    let originalChecksum := calculateChecksum cp fileBuffer
    let encryptedData := cp.aesGcmEncrypt key iv 128 fileBuffer
    let authTag := encryptedData.drop (encryptedData.length - 16)
    let ciphertext := encryptedData.take (encryptedData.length - 16)
    Except.ok
      { encryptedData := ciphertext
        iv := iv
        salt := salt
        authTag := authTag
        filename := file.name
        originalSize := file.size
        timestamp := now
        checksum := originalChecksum }

/-- The `try { ... }` block of `decryptFile`, after the key has been
derived: reconstruct ciphertext‖tag, call `crypto.subtle.decrypt`
(rejection modelled as the `OperationError` message), recompute the
checksum and compare it with the stored one, throwing the distinct
integrity message on mismatch, else build the returned `File` with MIME
type `application/octet-stream`. -/
def decryptFileBody (cp : CryptoProvider) (key : Nat) (ef : EncryptedFile) :
    Except String File :=
  let fullEncryptedData := ef.encryptedData ++ ef.authTag
  match cp.aesGcmDecrypt key ef.iv 128 fullEncryptedData with
  | none => Except.error "OperationError"
  | some decryptedData =>
    let decryptedChecksum := calculateChecksum cp decryptedData
    if decryptedChecksum ≠ ef.checksum then
      Except.error "File integrity verification failed - file may be corrupted"
    else
      Except.ok
        { data := decryptedData
          name := ef.filename
          type := "application/octet-stream" }

/-- Source `decryptFile(encryptedFile, password)`.  The key derivation sits
outside the `try`; every error raised inside the `try` block — the
`OperationError` of a failed tag verification as well as the integrity
message — is caught by the single `catch` and replaced by the one generic
error the caller can observe. -/
def decryptFile (cp : CryptoProvider) (ef : EncryptedFile) (password : String) :
    Except String File :=
  match deriveKey cp password ef.salt with
  | Except.error e => Except.error e
  | Except.ok key =>
    match decryptFileBody cp key ef with
    | Except.ok f => Except.ok f
    | Except.error _ =>
      Except.error "Failed to decrypt file - incorrect password or corrupted data"

/-!
Base64 transcoding.  `btoa` and `atob` are the browser primitives the
storage adapter composes with `String.fromCharCode` / `charCodeAt`; the
composite maps byte lists to lists of base64 character codes and back, and
is modelled concretely below with the standard alphabet
(A-Z, a-z, 0-9, plus, slash, with char code 61 as the padding sign).
-/

/-- Character code of the base64 digit for a sextet (0..63). -/
def sextetCode (n : Nat) : Nat :=
  if n < 26 then 65 + n
  else if n < 52 then 97 + (n - 26)
  else if n < 62 then 48 + (n - 52)
  else if n = 62 then 43
  else 47

/-- Sextet value of a base64 digit character code. -/
def codeSextet (c : Nat) : Nat :=
  if 65 ≤ c ∧ c ≤ 90 then c - 65
  else if 97 ≤ c ∧ c ≤ 122 then 26 + (c - 97)
  else if 48 ≤ c ∧ c ≤ 57 then 52 + (c - 48)
  else if c = 43 then 62
  else 63

/-- Model of `btoa(String.fromCharCode(...bytes))`: base64 character codes
for a byte list, three bytes to four digits, padded with char code 61. -/
def btoaBytes : List Nat → List Nat
  | [] => []
  | [b1] => [sextetCode (b1 / 4), sextetCode (b1 % 4 * 16), 61, 61]
  | [b1, b2] =>
      [sextetCode (b1 / 4), sextetCode (b1 % 4 * 16 + b2 / 16),
       sextetCode (b2 % 16 * 4), 61]
  | b1 :: b2 :: b3 :: rest =>
      sextetCode (b1 / 4) ::
      sextetCode (b1 % 4 * 16 + b2 / 16) ::
      sextetCode (b2 % 16 * 4 + b3 / 64) ::
      sextetCode (b3 % 64) :: btoaBytes rest

/-- Model of `Uint8Array.from(atob(s), c => c.charCodeAt(0))`: decode four
base64 character codes to three bytes, honouring padding. -/
def atobBytes : List Nat → List Nat
  | c1 :: c2 :: c3 :: c4 :: rest =>
      let s1 := codeSextet c1
      let s2 := codeSextet c2
      if c3 = 61 then [s1 * 4 + s2 / 16]
      else
        let s3 := codeSextet c3
        if c4 = 61 then [s1 * 4 + s2 / 16, s2 % 16 * 16 + s3 / 4]
        else
          (s1 * 4 + s2 / 16) ::
          (s2 % 16 * 16 + s3 / 4) ::
          (s3 % 4 * 64 + codeSextet c4) :: atobBytes rest
  | _ => []

theorem codeSextet_sextetCode : ∀ n, n < 64 → codeSextet (sextetCode n) = n := by
  decide

theorem sextetCode_ne_61 : ∀ n, n < 64 → sextetCode n ≠ 61 := by
  decide

theorem atobBytes_btoaBytes (l : List Nat) (hl : ∀ b ∈ l, b < 256) :
    atobBytes (btoaBytes l) = l := by
  induction l using btoaBytes.induct with
  | case1 => rfl
  | case2 b1 =>
    have h1 : b1 < 256 := hl b1 (by simp)
    have d1 : b1 / 4 < 64 := by omega
    have d2 : b1 % 4 * 16 < 64 := by omega
    simp only [btoaBytes, atobBytes, if_pos rfl,
      codeSextet_sextetCode _ d1, codeSextet_sextetCode _ d2]
    have : b1 / 4 * 4 + b1 % 4 * 16 / 16 = b1 := by omega
    rw [this]
    simp
  | case3 b1 b2 =>
    have h1 : b1 < 256 := hl b1 (by simp)
    have h2 : b2 < 256 := hl b2 (by simp)
    have d1 : b1 / 4 < 64 := by omega
    have d2 : b1 % 4 * 16 + b2 / 16 < 64 := by omega
    have d3 : b2 % 16 * 4 < 64 := by omega
    simp only [btoaBytes, atobBytes, if_neg (sextetCode_ne_61 _ d3), if_pos rfl,
      codeSextet_sextetCode _ d1, codeSextet_sextetCode _ d2,
      codeSextet_sextetCode _ d3]
    have e1 : b1 / 4 * 4 + (b1 % 4 * 16 + b2 / 16) / 16 = b1 := by omega
    have e2 : (b1 % 4 * 16 + b2 / 16) % 16 * 16 + b2 % 16 * 4 / 4 = b2 := by omega
    rw [e1, e2]
    simp
  | case4 b1 b2 b3 rest ih =>
    have h1 : b1 < 256 := hl b1 (by simp)
    have h2 : b2 < 256 := hl b2 (by simp)
    have h3 : b3 < 256 := hl b3 (by simp)
    have hrest : ∀ b ∈ rest, b < 256 := fun b hb => hl b (by simp [hb])
    have d1 : b1 / 4 < 64 := by omega
    have d2 : b1 % 4 * 16 + b2 / 16 < 64 := by omega
    have d3 : b2 % 16 * 4 + b3 / 64 < 64 := by omega
    have d4 : b3 % 64 < 64 := by omega
    simp only [btoaBytes, atobBytes, if_neg (sextetCode_ne_61 _ d3),
      if_neg (sextetCode_ne_61 _ d4),
      codeSextet_sextetCode _ d1, codeSextet_sextetCode _ d2,
      codeSextet_sextetCode _ d3, codeSextet_sextetCode _ d4]
    have e1 : b1 / 4 * 4 + (b1 % 4 * 16 + b2 / 16) / 16 = b1 := by omega
    have e2 : (b1 % 4 * 16 + b2 / 16) % 16 * 16 + (b2 % 16 * 4 + b3 / 64) / 4 = b2 := by
      omega
    have e3 : (b2 % 16 * 4 + b3 / 64) % 4 * 64 + b3 % 64 = b3 := by omega
    rw [e1, e2, e3, ih hrest]

/-- The columns of one row of the `encrypted_files` table that
`storeEncryptedFileInDB` inserts (`user_id` and the server-generated `id`
and `created_at` are owned by the backend and carry no blob data). -/
structure EncryptedFileRow where
  filename : String
  file_size : Nat
  mime_type : String
  encrypted_data : List Nat
  iv : List Nat
  salt : List Nat
deriving DecidableEq, Inhabited

/-- Source `storeEncryptedFileInDB(encryptedFile)`: base64-encode the
binary fields and insert the row.  Exactly the listed columns are written:
the blob's `authTag`, `timestamp` and `checksum` are not part of the
insert. -/
def storeEncryptedFileInDB (ef : EncryptedFile) : EncryptedFileRow :=
  { filename := ef.filename
    file_size := ef.originalSize
    mime_type := "application/octet-stream"
    encrypted_data := btoaBytes ef.encryptedData
    iv := btoaBytes ef.iv
    salt := btoaBytes ef.salt }

/-- Source `getEncryptedFileFromDB`, direct-access branch (the row carries
`encrypted_data`): base64-decode the binary columns and rebuild an
`EncryptedFile`.  The source fills `authTag` with
`new Uint8Array(16)` (a zero placeholder) and `checksum` with the empty
string; `createdAtMs` stands for `new Date(row.created_at).getTime()`. -/
def getEncryptedFileFromDB (row : EncryptedFileRow) (createdAtMs : Nat) :
    EncryptedFile :=
  { filename := row.filename
    originalSize := row.file_size
    encryptedData := atobBytes row.encrypted_data
    iv := atobBytes row.iv
    salt := atobBytes row.salt
    authTag := List.replicate 16 0
    timestamp := createdAtMs
    checksum := "" }

/-!
Documented behaviour of the platform AES-GCM primitive, stated as
properties of a `CryptoProvider`.  These are the WebCrypto guarantees the
source relies on; theorems that need them take them as hypotheses.
-/

/-- AES-GCM decryption with the key and IV used for encryption recovers the
plaintext. -/
def AEADRoundTrip (cp : CryptoProvider) : Prop :=
  ∀ key iv pt, cp.aesGcmDecrypt key iv 128 (cp.aesGcmEncrypt key iv 128 pt) = some pt

/-- AES-GCM output is the ciphertext (same length as the plaintext) with
the 16-byte tag appended. -/
def AEADCiphertextLength (cp : CryptoProvider) : Prop :=
  ∀ key iv pt, (cp.aesGcmEncrypt key iv 128 pt).length = pt.length + 16

/-- AES-GCM decryption under a key different from the one that produced
the data rejects (tag verification fails). -/
def AEADWrongKeyRejects (cp : CryptoProvider) : Prop :=
  ∀ key key' iv pt, key ≠ key' →
    cp.aesGcmDecrypt key' iv 128 (cp.aesGcmEncrypt key iv 128 pt) = none

/-- A small concrete provider used to evaluate the pipeline on explicit
inputs.  The cipher adds the key to every byte and uses the key itself,
padded to 16 entries, as the tag, so decryption detects every wrong key;
it satisfies the three AEAD properties above. -/
def toyProvider : CryptoProvider where
  pbkdf2 := fun pw salt iters _hash len => pw.sum * 31 + salt.sum + iters + len
  aesGcmEncrypt := fun key _iv _tl pt =>
    pt.map (fun b => b + key) ++ key :: List.replicate 15 0
  aesGcmDecrypt := fun key _iv _tl data =>
    if data.length < 16 then none
    else if data.drop (data.length - 16) = key :: List.replicate 15 0 then
      some ((data.take (data.length - 16)).map (fun b => b - key))
    else none
  sha256 := fun data => [data.sum % 256, data.length % 256]
  textEncode := fun s => s.data.map Char.toNat

theorem toyProvider_roundTrip : AEADRoundTrip toyProvider := by
  intro key iv pt
  simp only [toyProvider, AEADRoundTrip]
  have hlen : (pt.map (fun b => b + key) ++ key :: List.replicate 15 0).length
      = pt.length + 16 := by simp
  rw [hlen]
  have h16 : ¬ (pt.length + 16 < 16) := by omega
  rw [if_neg h16]
  have hdrop : (pt.map (fun b => b + key) ++ key :: List.replicate 15 0).drop
      (pt.length + 16 - 16) = key :: List.replicate 15 0 := by
    apply List.drop_left'
    simp
  have htake : (pt.map (fun b => b + key) ++ key :: List.replicate 15 0).take
      (pt.length + 16 - 16) = pt.map (fun b => b + key) := by
    apply List.take_left'
    simp
  rw [if_pos hdrop, htake, List.map_map]
  congr 1
  apply List.map_id''
  intro b
  simp

theorem toyProvider_length : AEADCiphertextLength toyProvider := by
  intro key iv pt
  simp [toyProvider]

theorem toyProvider_wrongKey : AEADWrongKeyRejects toyProvider := by
  intro key key' iv pt hne
  simp only [toyProvider]
  have hlen : (pt.map (fun b => b + key) ++ key :: List.replicate 15 0).length
      = pt.length + 16 := by simp
  rw [hlen]
  have h16 : ¬ (pt.length + 16 < 16) := by omega
  rw [if_neg h16]
  have hdrop : (pt.map (fun b => b + key) ++ key :: List.replicate 15 0).drop
      (pt.length + 16 - 16) = key :: List.replicate 15 0 := by
    apply List.drop_left'
    simp
  rw [hdrop]
  rw [if_neg]
  intro h
  exact hne (List.head_eq_of_cons_eq h)

/-- Structural decidable equality for `Except`, so concrete runs of the
pipeline can be checked by evaluation. -/
instance {e a : Type} [DecidableEq e] [DecidableEq a] : DecidableEq (Except e a) := by
  intro x y
  cases x with
  | ok v =>
    cases y with
    | ok w => exact decidable_of_iff (v = w) (by simp)
    | error f => exact Decidable.isFalse (by simp)
  | error f =>
    cases y with
    | ok w => exact Decidable.isFalse (by simp)
    | error f2 => exact decidable_of_iff (f = f2) (by simp)

/-!
Helper lemmas shared by several theorems below.
-/

/-- Evaluation of a full encrypt-then-decrypt cycle with the same password:
the decryption reaches the success branch and rebuilds the original bytes
and filename. -/
theorem decrypt_encrypt_eval (cp : CryptoProvider) (hRT : AEADRoundTrip cp)
    (g : Nat → Nat) (pos now : Nat) (file : File) (password : String)
    (ef : EncryptedFile)
    (henc : encryptFile cp g pos now file password = Except.ok ef) :
    decryptFile cp ef password =
      Except.ok { data := file.data, name := file.name,
                  type := "application/octet-stream" } := by
  have hRT' : ∀ key iv pt,
      cp.aesGcmDecrypt key iv 128 (cp.aesGcmEncrypt key iv 128 pt) = some pt := hRT
  simp only [encryptFile, deriveKey, Except.ok.injEq] at henc
  subst henc
  simp only [decryptFile, decryptFileBody, deriveKey, List.take_append_drop,
    hRT', ne_eq, not_true_eq_false, if_false, ite_not]

/-- A blob that `decryptFileBody` accepts carries plaintext whose MIME type
field was set to the octet-stream constant. -/
theorem decryptFileBody_ok_type (cp : CryptoProvider) (key : Nat)
    (ef : EncryptedFile) (f : File)
    (h : decryptFileBody cp key ef = Except.ok f) :
    f.type = "application/octet-stream" := by
  simp only [decryptFileBody] at h
  split at h
  · simp at h
  · split at h
    · simp at h
    · simp only [Except.ok.injEq] at h
      subst h
      rfl

/-- A successful `decryptFile` call is a successful `decryptFileBody` call
under the derived key. -/
theorem decryptFile_ok_body (cp : CryptoProvider) (ef : EncryptedFile)
    (password : String) (f : File)
    (h : decryptFile cp ef password = Except.ok f) :
    decryptFileBody cp
      (cp.pbkdf2 (cp.textEncode password) ef.salt 100000 "SHA-256" 256) ef =
      Except.ok f := by
  simp only [decryptFile, deriveKey] at h
  split at h
  next f' heq =>
    simp only [Except.ok.injEq] at h
    subst h
    exact heq
  next e heq => simp at h

/-- Every failing `decryptFile` call surfaces the one generic error
message; no other error value escapes. -/
theorem decryptFile_uniform_failure (cp : CryptoProvider) (ef : EncryptedFile)
    (password : String) :
    (∃ f, decryptFile cp ef password = Except.ok f) ∨
      decryptFile cp ef password =
        Except.error "Failed to decrypt file - incorrect password or corrupted data" := by
  simp only [decryptFile, deriveKey]
  cases hbody : decryptFileBody cp
      (cp.pbkdf2 (cp.textEncode password) ef.salt 100000 "SHA-256" 256) ef with
  | ok f => exact Or.inl ⟨f, rfl⟩
  | error e => exact Or.inr rfl

/-!
Claim theorems.
-/

/-- C1: for every plaintext byte sequence (including the empty one), every
filename and every password, decrypting the result of `encryptFile` with
the same password succeeds and returns exactly the original bytes and the
original filename, given the platform AES-GCM round-trip guarantee. -/
theorem C1_round_trip (cp : CryptoProvider) (hRT : AEADRoundTrip cp)
    (g : Nat → Nat) (pos now : Nat) (file : File) (password : String)
    (ef : EncryptedFile)
    (henc : encryptFile cp g pos now file password = Except.ok ef) :
    decryptFile cp ef password =
      Except.ok { data := file.data, name := file.name,
                  type := "application/octet-stream" } :=
  decrypt_encrypt_eval cp hRT g pos now file password ef henc

def c1file : File := { data := [], name := "note.txt", type := "text/plain" }

def c1blob : EncryptedFile :=
  (encryptFile toyProvider (fun i => i) 0 0 c1file "correcthorse1").toOption.getD default

/-- Witness for C1 at the 0-byte file scenario of the spec. -/
theorem C1_round_trip_witness :
    AEADRoundTrip toyProvider ∧
    encryptFile toyProvider (fun i => i) 0 0 c1file "correcthorse1" = Except.ok c1blob ∧
    decryptFile toyProvider c1blob "correcthorse1" =
      Except.ok { data := c1file.data, name := c1file.name,
                  type := "application/octet-stream" } :=
  ⟨toyProvider_roundTrip, by decide,
   C1_round_trip toyProvider toyProvider_roundTrip (fun i => i) 0 0 c1file
     "correcthorse1" c1blob (by decide)⟩

/-- C2: decrypting with a password that derives a different key always
yields the single generic failure (the AuthenticationFailure outcome),
never plaintext and never any other error; moreover every failing
`decryptFile` call, whatever its cause, surfaces that same error value. -/
theorem C2_wrong_password_fails_closed (cp : CryptoProvider)
    (hWK : AEADWrongKeyRejects cp) (g : Nat → Nat) (pos now : Nat)
    (file : File) (w1 w2 : String)
    (hkeys : deriveKey cp w1 (generateSalt g pos) ≠ deriveKey cp w2 (generateSalt g pos))
    (ef : EncryptedFile)
    (henc : encryptFile cp g pos now file w1 = Except.ok ef) :
    decryptFile cp ef w2 =
      Except.error "Failed to decrypt file - incorrect password or corrupted data" ∧
    ∀ (ef2 : EncryptedFile) (pw : String),
      (∃ f, decryptFile cp ef2 pw = Except.ok f) ∨
        decryptFile cp ef2 pw =
          Except.error "Failed to decrypt file - incorrect password or corrupted data" := by
  refine ⟨?_, fun ef2 pw => decryptFile_uniform_failure cp ef2 pw⟩
  have hWK' : ∀ key key' iv pt, key ≠ key' →
      cp.aesGcmDecrypt key' iv 128 (cp.aesGcmEncrypt key iv 128 pt) = none := hWK
  have hk : cp.pbkdf2 (cp.textEncode w1) (generateSalt g pos) 100000 "SHA-256" 256 ≠
      cp.pbkdf2 (cp.textEncode w2) (generateSalt g pos) 100000 "SHA-256" 256 := by
    intro h
    apply hkeys
    simp [deriveKey, h]
  simp only [encryptFile, deriveKey, Except.ok.injEq] at henc
  subst henc
  simp only [decryptFile, decryptFileBody, deriveKey, List.take_append_drop]
  rw [hWK' _ _ _ _ hk]

def c2file : File := { data := [3, 1, 4], name := "pi.bin", type := "text/plain" }

def c2blob : EncryptedFile :=
  (encryptFile toyProvider (fun i => i) 0 0 c2file "a").toOption.getD default

/-- Witness for C2 with two one-character passwords deriving different
keys. -/
theorem C2_wrong_password_fails_closed_witness :
    AEADWrongKeyRejects toyProvider ∧
    deriveKey toyProvider "a" (generateSalt (fun i => i) 0) ≠
      deriveKey toyProvider "b" (generateSalt (fun i => i) 0) ∧
    encryptFile toyProvider (fun i => i) 0 0 c2file "a" = Except.ok c2blob ∧
    decryptFile toyProvider c2blob "b" =
      Except.error "Failed to decrypt file - incorrect password or corrupted data" :=
  ⟨toyProvider_wrongKey, by decide, by decide,
   (C2_wrong_password_fails_closed toyProvider toyProvider_wrongKey (fun i => i) 0 0
     c2file "a" "b" (by decide) c2blob (by decide)).1⟩

def c3file : File := { data := [1, 2, 3], name := "doc.pdf", type := "application/pdf" }

def c3goodBlob : EncryptedFile :=
  (encryptFile toyProvider (fun i => i) 0 0 c3file "pw").toOption.getD default

/-- Blob whose authentication tag still verifies but whose stored checksum
differs from the checksum recomputed over the recovered plaintext. -/
def c3blob : EncryptedFile := { c3goodBlob with checksum := "tampered" }

def c3key : Nat :=
  toyProvider.pbkdf2 (toyProvider.textEncode "pw") c3blob.salt 100000 "SHA-256" 256

/-- C3 evaluated at the failing input: on a checksum mismatch after
successful tag verification the try-block does raise the distinct
integrity message, but `decryptFile` catches it and replaces it with the
very same generic error that a failed tag verification (here: a corrupted
tag) produces — so the IntegrityFailure outcome is not distinguishable from
the AuthenticationFailure outcome. -/
theorem C3_integrity_error_not_distinct :
    decryptFileBody toyProvider c3key c3blob =
      Except.error "File integrity verification failed - file may be corrupted" ∧
    decryptFile toyProvider c3blob "pw" =
      Except.error "Failed to decrypt file - incorrect password or corrupted data" ∧
    decryptFile toyProvider { c3goodBlob with authTag := List.replicate 16 1 } "pw" =
      Except.error "Failed to decrypt file - incorrect password or corrupted data" := by
  decide

/-- Blob with explicit byte-valued fields used to exercise the storage
adapter. -/
def c4blob : EncryptedFile :=
  { encryptedData := [0, 255, 10], iv := List.replicate 12 1,
    salt := List.replicate 32 2, authTag := List.replicate 16 9,
    filename := "a.bin", originalSize := 3, timestamp := 7, checksum := "aabb" }

/-- C4 counterexample: after a store/get cycle the authTag comes back as
the 16-byte zero placeholder and the checksum as the empty string, not as
the stored blob's values. -/
theorem C4_counterexample :
    (getEncryptedFileFromDB (storeEncryptedFileInDB c4blob) 7).authTag ≠ c4blob.authTag ∧
    (getEncryptedFileFromDB (storeEncryptedFileInDB c4blob) 7).checksum ≠ c4blob.checksum := by
  decide

/-- C4 (amended): ciphertext, iv and salt round-trip byte-exactly through
the base64 transcoding, and filename and originalSize are unchanged; the
authTag however is replaced by a 16-byte zero placeholder and the checksum
by the empty string, because the insert never stores them. -/
theorem C4_storage_round_trip (ef : EncryptedFile) (createdAtMs : Nat)
    (hdata : ∀ b ∈ ef.encryptedData, b < 256)
    (hiv : ∀ b ∈ ef.iv, b < 256)
    (hsalt : ∀ b ∈ ef.salt, b < 256) :
    getEncryptedFileFromDB (storeEncryptedFileInDB ef) createdAtMs =
      { ef with authTag := List.replicate 16 0, timestamp := createdAtMs,
                checksum := "" } := by
  simp only [storeEncryptedFileInDB, getEncryptedFileFromDB,
    atobBytes_btoaBytes _ hdata, atobBytes_btoaBytes _ hiv,
    atobBytes_btoaBytes _ hsalt]

/-- Witness for the amended C4 at an explicit byte-valued blob. -/
theorem C4_storage_round_trip_witness :
    (∀ b ∈ c4blob.encryptedData, b < 256) ∧
    (∀ b ∈ c4blob.iv, b < 256) ∧
    (∀ b ∈ c4blob.salt, b < 256) ∧
    getEncryptedFileFromDB (storeEncryptedFileInDB c4blob) 7 =
      { c4blob with authTag := List.replicate 16 0, timestamp := 7,
                    checksum := "" } :=
  ⟨by decide, by decide, by decide,
   C4_storage_round_trip c4blob 7 (by decide) (by decide) (by decide)⟩

/-- C5: deriveKey is deterministic — two calls with the same password and
salt resolve with the same key — and the derivation is PBKDF2 over SHA-256
with 100000 iterations producing a 256-bit AES-GCM key. -/
theorem C5_deriveKey_deterministic (cp : CryptoProvider) (password : String)
    (salt : List Nat) (k1 k2 : Nat)
    (h1 : deriveKey cp password salt = Except.ok k1)
    (h2 : deriveKey cp password salt = Except.ok k2) :
    k1 = k2 ∧ deriveKey cp password salt =
      Except.ok (cp.pbkdf2 (cp.textEncode password) salt 100000 "SHA-256" 256) := by
  refine ⟨?_, rfl⟩
  rw [h1] at h2
  simp only [Except.ok.injEq] at h2
  exact h2

def c5salt : List Nat := List.replicate 32 3

def c5key : Nat :=
  toyProvider.pbkdf2 (toyProvider.textEncode "pw") c5salt 100000 "SHA-256" 256

/-- Witness for C5 at a concrete password and salt. -/
theorem C5_deriveKey_deterministic_witness :
    deriveKey toyProvider "pw" c5salt = Except.ok c5key ∧
    (c5key = c5key ∧ deriveKey toyProvider "pw" c5salt =
      Except.ok (toyProvider.pbkdf2 (toyProvider.textEncode "pw") c5salt
        100000 "SHA-256" 256)) :=
  ⟨by decide,
   C5_deriveKey_deterministic toyProvider "pw" c5salt c5key c5key (by decide) (by decide)⟩

/-- C6 counterexample: deriveKey succeeds on a 31-byte salt instead of
rejecting it — the source performs no salt-length validation. -/
theorem C6_counterexample :
    (deriveKey toyProvider "password" (List.replicate 31 7)).isOk = true := by
  decide

/-- C6 (amended): deriveKey performs no input validation and never fails:
for every password and every salt of any length it resolves with the
derived key. -/
theorem C6_no_validation (cp : CryptoProvider) (password : String) (salt : List Nat) :
    deriveKey cp password salt =
      Except.ok (cp.pbkdf2 (cp.textEncode password) salt 100000 "SHA-256" 256) :=
  rfl

/-- C7: the blob's ciphertext has exactly the plaintext's byte length, and
its authTag is exactly the 16 trailing bytes split off the AEAD output,
kept as a field distinct from the ciphertext (their concatenation is the
full AEAD output), given the AES-GCM output-length guarantee. -/
theorem C7_ciphertext_length_and_tag (cp : CryptoProvider)
    (hLen : AEADCiphertextLength cp) (g : Nat → Nat) (pos now : Nat)
    (file : File) (password : String) (ef : EncryptedFile)
    (henc : encryptFile cp g pos now file password = Except.ok ef) :
    ef.encryptedData.length = file.data.length ∧
    ef.authTag.length = 16 ∧
    ef.encryptedData ++ ef.authTag =
      cp.aesGcmEncrypt
        (cp.pbkdf2 (cp.textEncode password) (generateSalt g pos) 100000 "SHA-256" 256)
        (generateIV g (pos + 32)) 128 file.data := by
  have hLen' : ∀ key iv pt,
      (cp.aesGcmEncrypt key iv 128 pt).length = pt.length + 16 := hLen
  simp only [encryptFile, deriveKey, Except.ok.injEq] at henc
  subst henc
  refine ⟨?_, ?_, List.take_append_drop _ _⟩
  · simp only [List.length_take, hLen']
    omega
  · simp only [List.length_drop, hLen']
    omega

def c7file : File := { data := [9, 8, 7], name := "c.bin", type := "text/plain" }

def c7blob : EncryptedFile :=
  (encryptFile toyProvider (fun i => i) 0 0 c7file "pw").toOption.getD default

/-- Witness for C7 at a 3-byte file. -/
theorem C7_ciphertext_length_and_tag_witness :
    AEADCiphertextLength toyProvider ∧
    encryptFile toyProvider (fun i => i) 0 0 c7file "pw" = Except.ok c7blob ∧
    (c7blob.encryptedData.length = c7file.data.length ∧
     c7blob.authTag.length = 16 ∧
     c7blob.encryptedData ++ c7blob.authTag =
       toyProvider.aesGcmEncrypt
         (toyProvider.pbkdf2 (toyProvider.textEncode "pw")
           (generateSalt (fun i => i) 0) 100000 "SHA-256" 256)
         (generateIV (fun i => i) (0 + 32)) 128 c7file.data) :=
  ⟨toyProvider_length, by decide,
   C7_ciphertext_length_and_tag toyProvider toyProvider_length (fun i => i) 0 0
     c7file "pw" c7blob (by decide)⟩

/-- C8 (amended): every `encryptFile` call takes its salt and IV verbatim
from the fresh random draws — 32 and 12 bytes read from the secure random
source, independent of the file content and password — and two encryptions
whose random draws differ produce blobs with different salts and different
IVs.  (Ciphertext inequality is not part of the amended claim: for the
empty plaintext the two ciphertexts coincide.) -/
theorem C8_fresh_salt_iv (cp : CryptoProvider) (g1 g2 : Nat → Nat)
    (pos1 pos2 now1 now2 : Nat) (f1 f2 : File) (pw1 pw2 : String)
    (e1 e2 : EncryptedFile)
    (h1 : encryptFile cp g1 pos1 now1 f1 pw1 = Except.ok e1)
    (h2 : encryptFile cp g2 pos2 now2 f2 pw2 = Except.ok e2) :
    (e1.salt = generateSalt g1 pos1 ∧ e1.iv = generateIV g1 (pos1 + 32) ∧
     e1.salt.length = 32 ∧ e1.iv.length = 12) ∧
    (generateSalt g1 pos1 ≠ generateSalt g2 pos2 → e1.salt ≠ e2.salt) ∧
    (generateIV g1 (pos1 + 32) ≠ generateIV g2 (pos2 + 32) → e1.iv ≠ e2.iv) := by
  simp only [encryptFile, deriveKey, Except.ok.injEq] at h1 h2
  subst h1
  subst h2
  exact ⟨⟨rfl, rfl, by simp [generateSalt, getRandomValues],
          by simp [generateIV, getRandomValues]⟩,
         fun h => h, fun h => h⟩

def c8file : File := { data := [], name := "empty.bin", type := "text/plain" }

def c8blob1 : EncryptedFile :=
  (encryptFile toyProvider (fun i => i % 256) 0 0 c8file "pw").toOption.getD default

def c8blob2 : EncryptedFile :=
  (encryptFile toyProvider (fun i => (i + 1) % 256) 0 0 c8file "pw").toOption.getD default

/-- C8 counterexample: two encryptions of the same empty plaintext with the
same password and differing random draws yield different salts and
different IVs but EQUAL ciphertexts (both empty), contradicting the
claim's "different ciphertexts". -/
theorem C8_counterexample :
    encryptFile toyProvider (fun i => i % 256) 0 0 c8file "pw" = Except.ok c8blob1 ∧
    encryptFile toyProvider (fun i => (i + 1) % 256) 0 0 c8file "pw" = Except.ok c8blob2 ∧
    c8blob1.salt ≠ c8blob2.salt ∧ c8blob1.iv ≠ c8blob2.iv ∧
    c8blob1.encryptedData = c8blob2.encryptedData := by
  decide

def c8fileW : File := { data := [1], name := "w.bin", type := "text/plain" }

def c8blobW1 : EncryptedFile :=
  (encryptFile toyProvider (fun i => i % 256) 0 0 c8fileW "pw").toOption.getD default

def c8blobW2 : EncryptedFile :=
  (encryptFile toyProvider (fun i => (i + 1) % 256) 0 0 c8fileW "pw").toOption.getD default

/-- Witness for the amended C8 at two concrete differing random tapes. -/
theorem C8_fresh_salt_iv_witness :
    encryptFile toyProvider (fun i => i % 256) 0 0 c8fileW "pw" = Except.ok c8blobW1 ∧
    encryptFile toyProvider (fun i => (i + 1) % 256) 0 0 c8fileW "pw" = Except.ok c8blobW2 ∧
    ((c8blobW1.salt = generateSalt (fun i => i % 256) 0 ∧
      c8blobW1.iv = generateIV (fun i => i % 256) (0 + 32) ∧
      c8blobW1.salt.length = 32 ∧ c8blobW1.iv.length = 12) ∧
     (generateSalt (fun i => i % 256) 0 ≠ generateSalt (fun i => (i + 1) % 256) 0 →
       c8blobW1.salt ≠ c8blobW2.salt) ∧
     (generateIV (fun i => i % 256) (0 + 32) ≠ generateIV (fun i => (i + 1) % 256) (0 + 32) →
       c8blobW1.iv ≠ c8blobW2.iv)) :=
  ⟨by decide, by decide,
   C8_fresh_salt_iv toyProvider (fun i => i % 256) (fun i => (i + 1) % 256)
     0 0 0 0 c8fileW c8fileW "pw" "pw" c8blobW1 c8blobW2 (by decide) (by decide)⟩

def c9file : File := { data := [5, 6], name := "f.txt", type := "text/plain" }

def c9goodBlob : EncryptedFile :=
  (encryptFile toyProvider (fun i => i) 0 0 c9file "pw").toOption.getD default

/-- Honestly encrypted blob whose unauthenticated `originalSize` field has
been altered; every cryptographic check still passes. -/
def c9blob : EncryptedFile := { c9goodBlob with originalSize := 999 }

def c9out : File := (decryptFile toyProvider c9blob "pw").toOption.getD default

/-- C9 counterexample: a successful `decryptFile` call on a blob whose
`originalSize` was altered — decryption succeeds and the field does not
equal the recovered plaintext's byte length, because `decryptFile` never
checks `originalSize`. -/
theorem C9_counterexample :
    decryptFile toyProvider c9blob "pw" = Except.ok c9out ∧
    c9blob.originalSize ≠ c9out.data.length := by
  decide

/-- C9 (amended): for blobs produced by `encryptFile` and decrypted with
the same password, every successful `decryptFile` call recovers plaintext
whose byte length equals the blob's `originalSize`. -/
theorem C9_size_fidelity (cp : CryptoProvider) (hRT : AEADRoundTrip cp)
    (g : Nat → Nat) (pos now : Nat) (file : File) (password : String)
    (ef : EncryptedFile) (f : File)
    (henc : encryptFile cp g pos now file password = Except.ok ef)
    (hdec : decryptFile cp ef password = Except.ok f) :
    ef.originalSize = f.data.length := by
  rw [decrypt_encrypt_eval cp hRT g pos now file password ef henc] at hdec
  simp only [Except.ok.injEq] at hdec
  subst hdec
  simp only [encryptFile, deriveKey, Except.ok.injEq] at henc
  subst henc
  rfl

def c9wOut : File := (decryptFile toyProvider c9goodBlob "pw").toOption.getD default

/-- Witness for the amended C9 at a 2-byte file. -/
theorem C9_size_fidelity_witness :
    AEADRoundTrip toyProvider ∧
    encryptFile toyProvider (fun i => i) 0 0 c9file "pw" = Except.ok c9goodBlob ∧
    decryptFile toyProvider c9goodBlob "pw" = Except.ok c9wOut ∧
    c9goodBlob.originalSize = c9wOut.data.length :=
  ⟨toyProvider_roundTrip, by decide, by decide,
   C9_size_fidelity toyProvider toyProvider_roundTrip (fun i => i) 0 0 c9file "pw"
     c9goodBlob c9wOut (by decide) (by decide)⟩

/-- C10: every `File` returned by a successful `decryptFile` call has MIME
type application/octet-stream, whatever the original file's MIME type
was — the original content type is not preserved. -/
theorem C10_mime_type_octet_stream (cp : CryptoProvider) (ef : EncryptedFile)
    (password : String) (f : File)
    (hdec : decryptFile cp ef password = Except.ok f) :
    f.type = "application/octet-stream" :=
  decryptFileBody_ok_type cp
    (cp.pbkdf2 (cp.textEncode password) ef.salt 100000 "SHA-256" 256) ef f
    (decryptFile_ok_body cp ef password f hdec)

def c10file : File := { data := [42], name := "img.png", type := "image/png" }

def c10blob : EncryptedFile :=
  (encryptFile toyProvider (fun i => i) 0 0 c10file "pw").toOption.getD default

def c10out : File := (decryptFile toyProvider c10blob "pw").toOption.getD default

/-- Witness for C10: a PNG-typed file round-trips to an octet-stream-typed
one. -/
theorem C10_mime_type_octet_stream_witness :
    decryptFile toyProvider c10blob "pw" = Except.ok c10out ∧
    c10out.type = "application/octet-stream" :=
  ⟨by decide, C10_mime_type_octet_stream toyProvider c10blob "pw" c10out (by decide)⟩
